import Mathlib

/-!
Shallow embedding of src/dist/video-fullscreen.js.

The source has two parts:
  * the API resolver `findSupported(apiList, document)`, which scans a
    priority-ordered list of six-name API bundles for the first one whose
    exit-method name (index 1) is a property of the probe environment and
    builds a plain JS object mapping the standard bundle names (keys,
    from apiList[0]) to the matched bundle names (values); and
  * the controller `createFullscreen(apiList, document)`, which closes over
    the resolved mapping (or null), a probe video created once at
    construction, and a single mutable slot `activeVideo`.

JS values that matter to the claims are modelled explicitly: property
presence and truthiness on the document are fields of `Env`; native calls
return `Except JsErr JsVal` (an exception or an opaque value); each
operation returns its successor slot state, the list of environment
effects it performed, and an `Outcome` (a returned value, undefined, or a
propagated exception). JS object assignment semantics (duplicate keys
overwrite in place) are modelled by `objInsert`.
-/

/-- Opaque identity of a JS value returned by a native call. -/
abbrev JsVal := Nat

/-- Opaque identity of a DOM element that is not a video. -/
abbrev Elem := Nat

/-- Opaque identity of an event listener function. -/
abbrev Listener := Nat

/-- A thrown JS exception: the TypeError raised by dereferencing null or
undefined, or an opaque native failure. -/
inductive JsErr where
  | typeError : JsErr
  | native : Nat → JsErr
deriving DecidableEq, Repr

instance {ε α : Type} [DecidableEq ε] [DecidableEq α] : DecidableEq (Except ε α) := fun x y =>
  match x, y with
  | Except.ok a, Except.ok b =>
    if h : a = b then Decidable.isTrue (by rw [h])
    else Decidable.isFalse (by intro hc; cases hc; exact h rfl)
  | Except.error a, Except.error b =>
    if h : a = b then Decidable.isTrue (by rw [h])
    else Decidable.isFalse (by intro hc; cases hc; exact h rfl)
  | Except.ok _, Except.error _ => Decidable.isFalse (by intro hc; cases hc)
  | Except.error _, Except.ok _ => Decidable.isFalse (by intro hc; cases hc)

/-- A video element: its identity, the truthiness of the
webkitEnterFullscreen property (probed by the enabled getter), the outcome
of calling webkitEnterFullscreen and webkitExitFullscreen on it, and its
webkitDisplayingFullscreen flag. -/
structure Video where
  id : Nat
  hasEnter : Bool
  enterResult : Except JsErr JsVal
  exitResult : Except JsErr JsVal
  displayingFullscreen : Bool
deriving DecidableEq, Repr

/-- A DOM object the controller can report as the fullscreen element:
either a plain element or a video. Equality models JS reference equality. -/
inductive DomObj where
  | el : Elem → DomObj
  | vid : Video → DomObj
deriving DecidableEq, Repr

/-- The destructured argument of isFullscreen, request and toggle:
an optional element and an optional video (absent argument is both none). -/
structure Target where
  el : Option Elem
  video : Option Video

/-- A candidate API bundle: the six environment-specific names in the
fixed order request-method, exit-method, element-property,
enabled-property, change-event, error-event (array indices 0..5 in the
source). -/
structure Bundle where
  requestMethod : String
  exitMethod : String
  elementProp : String
  enabledProp : String
  changeEvent : String
  errorEvent : String
deriving DecidableEq, Repr

instance : Inhabited Bundle := ⟨⟨"", "", "", "", "", ""⟩⟩

/-- The six names of a bundle in array order. -/
def bundleNames (b : Bundle) : List String :=
  [b.requestMethod, b.exitMethod, b.elementProp, b.enabledProp,
   b.changeEvent, b.errorEvent]

/-- The resolved mapping: a JS object modelled as an ordered association
list with unique keys. -/
abbrev Mapping := List (String × String)

/-- JS object property assignment obj[k] = v: an existing key keeps its
insertion position and its value is overwritten; a new key is appended. -/
def objInsert (m : Mapping) (k v : String) : Mapping :=
  if k ∈ m.map Prod.fst then
    m.map fun p => if p.1 = k then (k, v) else p
  else
    m ++ [(k, v)]

/-- JS object property read obj[k] as an Option. -/
def objLookup (m : Mapping) (k : String) : Option String :=
  (m.find? fun p => p.1 = k).map Prod.snd

/-- JS object property read obj[k] used itself as a document property
name: a missing key yields undefined, which JS coerces to the string
"undefined" when used as a key. -/
def jsIndex (m : Mapping) (k : String) : String :=
  (objLookup m k).getD "undefined"

/-- The reduce call in findSupported: fold JS object assignments of
matched-bundle names under standard-bundle keys, position for position,
starting from the empty object. -/
def mkMapping (std mt : Bundle) : Mapping :=
  ((bundleNames std).zip (bundleNames mt)).foldl
    (fun r q => objInsert r q.1 q.2) []

/-- An effect the controller performs on the environment. Each constructor
records one evaluated native-call or listener-registration expression. -/
inductive Eff where
  | requestNative : Elem → String → Eff
  | exitNative : String → Eff
  | enterVideo : Video → Eff
  | exitVideo : Video → Eff
  | addListener : String → Listener → Bool → Eff
  | removeListener : String → Listener → Bool → Eff
deriving DecidableEq, Repr

/-- What an operation presents to its caller: a returned value
(ret (some v)), undefined (ret none), or a propagated exception. -/
inductive Outcome where
  | ret : Option JsVal → Outcome
  | thrown : JsErr → Outcome
deriving DecidableEq, Repr

/-- The probe environment (the document): property presence (the in
operator), property truthiness, property read as element-or-null, the
root documentElement, the video built by createElement, and the results
of the two standard-path native calls. -/
structure Env where
  has : String → Bool
  truthy : String → Bool
  elemAt : String → Option DomObj
  documentElement : Elem
  createVideo : Video
  requestCall : Elem → String → Except JsErr JsVal
  exitCall : String → Except JsErr JsVal

/-- Resolver findSupported(apiList, document): find the first bundle in
order whose exit-method name (index 1) is a property of the document; on
a match build the mapping from the standard bundle (apiList[0]) to the
matched bundle; otherwise return null. When the find succeeds the list is
nonempty, so the headD default is never consulted (in the source,
standardApi would be undefined exactly when no iteration happened). -/
def findSupported (apiList : List Bundle) (env : Env) : Option Mapping :=
  match apiList.find? (fun api => env.has api.exitMethod) with
  | some api => some (mkMapping (apiList.headD default) api)
  | none => none

/-- The static priority-ordered candidate list API_LIST of the source. -/
def API_LIST : List Bundle :=
  [⟨"requestFullscreen", "exitFullscreen", "fullscreenElement",
    "fullscreenEnabled", "fullscreenchange", "fullscreenerror"⟩,
   ⟨"webkitRequestFullscreen", "webkitExitFullscreen",
    "webkitFullscreenElement", "webkitFullscreenEnabled",
    "webkitfullscreenchange", "webkitfullscreenerror"⟩,
   ⟨"webkitRequestFullScreen", "webkitCancelFullScreen",
    "webkitCurrentFullScreenElement", "webkitCancelFullScreen",
    "webkitfullscreenchange", "webkitfullscreenerror"⟩,
   ⟨"mozRequestFullScreen", "mozCancelFullScreen", "mozFullScreenElement",
    "mozFullScreenEnabled", "mozfullscreenchange", "mozfullscreenerror"⟩,
   ⟨"msRequestFullscreen", "msExitFullscreen", "msFullscreenElement",
    "msFullscreenEnabled", "MSFullscreenChange", "MSFullscreenError"⟩]

/-- The immutable part of a controller: the resolved API mapping, the
probe video TEST_VIDEO created at construction, and the environment. The
single mutable slot activeVideo is threaded explicitly as Option Video. -/
structure Controller where
  API : Option Mapping
  TEST_VIDEO : Video
  env : Env

/-- createFullscreen(apiList, document): resolve the API once and create
the probe video once. -/
def createFullscreen (apiList : List Bundle) (env : Env) : Controller :=
  { API := findSupported apiList env
    TEST_VIDEO := env.createVideo
    env := env }

/-- Turn a native-call result into the outcome the caller sees when the
controller does not intercept it: the value is forwarded untouched and a
throw propagates. -/
def toOutcome : Except JsErr JsVal → Outcome
  | Except.ok v => Outcome.ret (some v)
  | Except.error e => Outcome.thrown e

/-- Evaluation of the expression video[webkitEnterFullscreen]() on a
video object: the invocation effect is recorded and the video determines
the result. -/
def videoEnterCall (v : Video) : List Eff × Except JsErr JsVal :=
  ([Eff.enterVideo v], v.enterResult)

/-- Evaluation of the expression activeVideo[webkitExitFullscreen]()
against the current slot value: reading a property off null throws a
TypeError before any call happens, so a null slot yields no invocation
effect; a non-null slot records the invocation and the video determines
the result. -/
def videoExitCall : Option Video → List Eff × Except JsErr JsVal
  | none => ([], Except.error JsErr.typeError)
  | some v => ([Eff.exitVideo v], v.exitResult)

/-- Getter enabled: Boolean(elementEnabled or videoEnabled), where
elementEnabled is API and document[API[fullscreenEnabled]] (false when
API is null) and videoEnabled is the truthiness of
TEST_VIDEO.webkitEnterFullscreen. -/
def Controller.enabled (c : Controller) : Bool :=
  (match c.API with
   | some api => c.env.truthy (jsIndex api "fullscreenEnabled")
   | none => false)
  || c.TEST_VIDEO.hasEnter

/-- Getter element: with an API, document[API[fullscreenElement]];
otherwise activeVideo if it is non-null and its
webkitDisplayingFullscreen flag is true, else null. -/
def Controller.element (c : Controller) (st : Option Video) : Option DomObj :=
  match c.API with
  | some api => c.env.elemAt (jsIndex api "fullscreenElement")
  | none =>
    match st with
    | some v => if v.displayingFullscreen then some (DomObj.vid v) else none
    | none => none

/-- isFullscreen({el, video}): with an API, el picked when given (objects
are truthy) and compared by reference to this.element, else the test that
this.element is non-null; without an API the same with video. -/
def Controller.isFullscreen (c : Controller) (st : Option Video) (t : Target) : Bool :=
  match c.API with
  | some _ =>
    match t.el with
    | some x => decide (c.element st = some (DomObj.el x))
    | none => (c.element st).isSome
  | none =>
    match t.video with
    | some v => decide (c.element st = some (DomObj.vid v))
    | none => (c.element st).isSome

/-- request({el, video}): with an API, call the resolved request-method
on el (defaulted to document.documentElement) and forward the result
untouched, exceptions included; without an API and with a video, set
activeVideo to it and attempt the native enter call, clearing the slot
and returning undefined if it throws; otherwise do nothing and return
undefined. -/
def Controller.request (c : Controller) (st : Option Video) (t : Target) :
    Option Video × List Eff × Outcome :=
  match c.API with
  | some api =>
    let e := t.el.getD c.env.documentElement
    let m := jsIndex api "requestFullscreen"
    (st, [Eff.requestNative e m], toOutcome (c.env.requestCall e m))
  | none =>
    match t.video with
    | some v =>
      let r := videoEnterCall v
      match r.2 with
      | Except.ok x => (some v, r.1, Outcome.ret (some x))
      | Except.error _ => (none, r.1, Outcome.ret none)
    | none => (st, [], Outcome.ret none)

/-- The exit operation: with an API, call the resolved exit-method on the
document and forward the result untouched; without an API and with a
non-null slot, first clear the slot to null, then evaluate the exit call
against the already-cleared slot inside try/catch (the source reads
activeVideo again after the assignment); with a null slot do nothing.
Any throw in the legacy branch is swallowed and undefined returned. -/
def Controller.exit (c : Controller) (st : Option Video) :
    Option Video × List Eff × Outcome :=
  match c.API with
  | some api =>
    let m := jsIndex api "exitFullscreen"
    (st, [Eff.exitNative m], toOutcome (c.env.exitCall m))
  | none =>
    match st with
    | some _ =>
      let cleared : Option Video := none
      let r := videoExitCall cleared
      match r.2 with
      | Except.ok x => (cleared, r.1, Outcome.ret (some x))
      | Except.error _ => (cleared, r.1, Outcome.ret none)
    | none => (st, [], Outcome.ret none)

/-- toggle(target): if this.isFullscreen(target) then this.exit() else
this.request(target), both return values discarded (toggle itself returns
undefined), so only the state change and the effects remain. -/
def Controller.toggle (c : Controller) (st : Option Video) (t : Target) :
    Option Video × List Eff :=
  if c.isFullscreen st t then
    let r := c.exit st
    (r.1, r.2.1)
  else
    let r := c.request st t
    (r.1, r.2.1)

/-- onChange(listener): with an API, addEventListener of the resolved
change-event name with capture false; otherwise nothing. -/
def Controller.onChange (c : Controller) (st : Option Video) (l : Listener) :
    Option Video × List Eff :=
  match c.API with
  | some api => (st, [Eff.addListener (jsIndex api "fullscreenchange") l false])
  | none => (st, [])

/-- offChange(listener): with an API, removeEventListener of the resolved
change-event name with capture false; otherwise nothing. -/
def Controller.offChange (c : Controller) (st : Option Video) (l : Listener) :
    Option Video × List Eff :=
  match c.API with
  | some api => (st, [Eff.removeListener (jsIndex api "fullscreenchange") l false])
  | none => (st, [])

/-- onError(listener): with an API, addEventListener of the resolved
error-event name with capture false; otherwise nothing. -/
def Controller.onError (c : Controller) (st : Option Video) (l : Listener) :
    Option Video × List Eff :=
  match c.API with
  | some api => (st, [Eff.addListener (jsIndex api "fullscreenerror") l false])
  | none => (st, [])

/-- offError(listener): with an API, removeEventListener of the resolved
error-event name with capture false; otherwise nothing. -/
def Controller.offError (c : Controller) (st : Option Video) (l : Listener) :
    Option Video × List Eff :=
  match c.API with
  | some api => (st, [Eff.removeListener (jsIndex api "fullscreenerror") l false])
  | none => (st, [])

/-- The spec description of toggle, stated independently for the
refinement comparison: if isFullscreen(target) then exit() else
request(target), compared on state change and environment calls. -/
def toggleSpec (c : Controller) (st : Option Video) (t : Target) :
    Option Video × List Eff :=
  if c.isFullscreen st t then
    ((c.exit st).1, (c.exit st).2.1)
  else
    ((c.request st t).1, (c.request st t).2.1)

/-- A probe video whose legacy entry point exists. -/
def probeVideo : Video := ⟨0, true, Except.ok 1, Except.ok 2, false⟩

/-- A video currently reporting itself fullscreen. -/
def demoVideo : Video := ⟨10, true, Except.ok 3, Except.ok 4, true⟩

/-- A video whose native enter call throws. -/
def throwVideo : Video := ⟨11, true, Except.error (JsErr.native 9), Except.ok 4, false⟩

/-- An environment that exposes no property at all: no bundle matches, so
the controller built on it runs in legacy mode. -/
def noEnv : Env where
  has := fun _ => false
  truthy := fun _ => false
  elemAt := fun _ => none
  documentElement := 0
  createVideo := probeVideo
  requestCall := fun _ _ => Except.ok 0
  exitCall := fun _ => Except.ok 0

/-- An environment exposing exactly the standard exit name, so the first
bundle of API_LIST matches; property 7 is the current fullscreen element
and the native request call returns value 5. -/
def stdEnv : Env where
  has := fun s => s == "exitFullscreen"
  truthy := fun s => s == "fullscreenEnabled"
  elemAt := fun s => if s == "fullscreenElement" then some (DomObj.el 7) else none
  documentElement := 1
  createVideo := probeVideo
  requestCall := fun _ _ => Except.ok 5
  exitCall := fun _ => Except.ok 6

/-- An environment exposing only the old webkit exit name, so bundle 1 of
API_LIST is the first match. -/
def webkitEnv : Env where
  has := fun s => s == "webkitExitFullscreen"
  truthy := fun _ => false
  elemAt := fun _ => none
  documentElement := 0
  createVideo := probeVideo
  requestCall := fun _ _ => Except.ok 0
  exitCall := fun _ => Except.ok 0

/-- The controller of the source built in legacy mode (no bundle matches). -/
def cLegacy : Controller := createFullscreen API_LIST noEnv

/-- The controller of the source built in standard mode on the first
bundle. -/
def cStd : Controller := createFullscreen API_LIST stdEnv

/-- The mapping resolved by cStd: every standard name maps to itself. -/
def stdMapping : Mapping :=
  [("requestFullscreen", "requestFullscreen"),
   ("exitFullscreen", "exitFullscreen"),
   ("fullscreenElement", "fullscreenElement"),
   ("fullscreenEnabled", "fullscreenEnabled"),
   ("fullscreenchange", "fullscreenchange"),
   ("fullscreenerror", "fullscreenerror")]

/-- A first bundle with a duplicated name (dupK at positions 1 and 3), as
the genuine API_LIST itself has inside its third bundle. -/
def cexStd : Bundle := ⟨"reqA", "dupK", "elemC", "dupK", "chgE", "errF"⟩

/-- A second bundle with six distinct names. -/
def cexAlt : Bundle := ⟨"reqA2", "exitK1", "elemC2", "enabK3", "chgE2", "errF2"⟩

/-- An environment exposing only the exit name of cexAlt, so the second
bundle is the first match. -/
def cexEnv : Env where
  has := fun s => s == "exitK1"
  truthy := fun _ => false
  elemAt := fun _ => none
  documentElement := 0
  createVideo := probeVideo
  requestCall := fun _ _ => Except.ok 0
  exitCall := fun _ => Except.ok 0

/-- List.find? returns the element at the first index where the predicate
holds, when all earlier indices fail it. -/
theorem find_first_of_min {α : Type} (p : α → Bool) :
    ∀ (l : List α) (i : Nat) (hi : i < l.length),
      p (l.get ⟨i, hi⟩) = true →
      (∀ j, (hj : j < l.length) → j < i → p (l.get ⟨j, hj⟩) = false) →
      l.find? p = some (l.get ⟨i, hi⟩) := by
  intro l
  induction l with
  | nil => intro i hi _ _; exact absurd hi (by simp)
  | cons a t ih =>
    intro i hi hp hmin
    cases i with
    | zero =>
      exact List.find?_cons_of_pos t hp
    | succ n =>
      have ha : p a = false := hmin 0 (by simp) (Nat.succ_pos n)
      rw [List.find?_cons_of_neg t (by simp [ha])]
      exact ih n (Nat.lt_of_succ_lt_succ hi) hp
        (fun j hj hji => hmin (j + 1) (Nat.succ_lt_succ hj) (Nat.succ_lt_succ hji))

/-- Folding JS object assignments over pairs with pairwise-distinct keys,
all fresh for the accumulator, appends the pairs unchanged. -/
theorem foldl_objInsert_fresh :
    ∀ (ps : List (String × String)) (acc : Mapping),
      (ps.map Prod.fst).Nodup →
      (∀ k, k ∈ acc.map Prod.fst → k ∉ ps.map Prod.fst) →
      ps.foldl (fun r q => objInsert r q.1 q.2) acc = acc ++ ps := by
  intro ps
  induction ps with
  | nil => intro acc _ _; simp
  | cons q t ih =>
    intro acc hnd hdisj
    have hq : q.1 ∉ acc.map Prod.fst := by
      intro hmem
      exact hdisj q.1 hmem (by simp)
    have h1 : objInsert acc q.1 q.2 = acc ++ [(q.1, q.2)] := by
      simp [objInsert, hq]
    have hnd1 : q.1 ∉ t.map Prod.fst := by
      simp only [List.map_cons, List.nodup_cons] at hnd
      exact hnd.1
    have hnd2 : (t.map Prod.fst).Nodup := by
      simp only [List.map_cons, List.nodup_cons] at hnd
      exact hnd.2
    have hdisj2 : ∀ k, k ∈ (acc ++ [(q.1, q.2)]).map Prod.fst → k ∉ t.map Prod.fst := by
      intro k hk
      rw [List.map_append] at hk
      rcases List.mem_append.mp hk with h | h
      · intro hmem
        exact hdisj k h (by simp [hmem])
      · have : k = q.1 := by simpa using h
        subst this
        exact hnd1
    rw [List.foldl_cons, h1, ih (acc ++ [(q.1, q.2)]) hnd2 hdisj2]
    simp

/-- With pairwise-distinct standard names, the reduce in findSupported
builds exactly the positional pairing of standard names with matched
names. -/
theorem mkMapping_eq_zip (std mt : Bundle) (h : (bundleNames std).Nodup) :
    mkMapping std mt = (bundleNames std).zip (bundleNames mt) := by
  have hkeys : ((bundleNames std).zip (bundleNames mt)).map Prod.fst = bundleNames std :=
    List.map_fst_zip _ _ (by simp [bundleNames])
  have hfold := foldl_objInsert_fresh ((bundleNames std).zip (bundleNames mt)) []
    (by rw [hkeys]; exact h) (by intro k hk; simp at hk)
  simpa [mkMapping] using hfold

/-- C1 (amended): for every candidate list whose first bundle has six
pairwise-distinct names and every probe environment, if i is the smallest
index such that the exit-method name of bundle i exists on the probe,
resolution selects bundle i (later bundles are unconstrained, so a later
match changes nothing) and returns the mapping pairing the six names of
candidates[0] (keys) with the six names of candidates[i] (values),
position for position. Without the distinctness assumption the claim
fails, because JS object assignment collapses duplicate keys (see the
counterexample). -/
theorem findSupported_first_match (apiList : List Bundle) (env : Env) (i : Nat)
    (hi : i < apiList.length)
    (hnodup : (bundleNames (apiList.get ⟨0, Nat.lt_of_le_of_lt (Nat.zero_le i) hi⟩)).Nodup)
    (hmatch : env.has (apiList.get ⟨i, hi⟩).exitMethod = true)
    (hmin : ∀ j, (hj : j < apiList.length) → j < i →
      env.has (apiList.get ⟨j, hj⟩).exitMethod = false) :
    findSupported apiList env =
      some ((bundleNames (apiList.get ⟨0, Nat.lt_of_le_of_lt (Nat.zero_le i) hi⟩)).zip
        (bundleNames (apiList.get ⟨i, hi⟩))) := by
  have hfind := find_first_of_min (fun api => env.has api.exitMethod) apiList i hi
    hmatch hmin
  have hhead : apiList.headD default =
      apiList.get ⟨0, Nat.lt_of_le_of_lt (Nat.zero_le i) hi⟩ := by
    cases apiList with
    | nil => exact absurd hi (by simp)
    | cons a t => rfl
  simp only [findSupported, hfind]
  rw [hhead, mkMapping_eq_zip _ _ hnodup]

/-- C1 witness: on the genuine API_LIST against an environment exposing
only webkitExitFullscreen, the second bundle (index 1) is selected and
the mapping pairs the standard names with the webkit names. -/
theorem findSupported_first_match_w :
    findSupported API_LIST webkitEnv =
      some ((bundleNames (API_LIST.get ⟨0, by decide⟩)).zip
        (bundleNames (API_LIST.get ⟨1, by decide⟩))) :=
  findSupported_first_match API_LIST webkitEnv 1 (by decide) (by decide) (by decide)
    (by
      intro j hj hji
      have hz : j = 0 := by omega
      subst hz
      simp [API_LIST, webkitEnv])

/-- C1 counterexample: with a first bundle whose exit-method name (index
1) and enabled-property name (index 3) coincide, the second bundle is
still the first (and only) match, but the returned object is not the
positional pairing of the six key names with the six value names: the
duplicated key dupK ends bound to the position-3 value enabK3, and the
position-1 pair (dupK, exitK1) is lost. -/
theorem findSupported_first_match_cex :
    cexEnv.has (([cexStd, cexAlt].get ⟨1, by decide⟩).exitMethod) = true
    ∧ cexEnv.has (([cexStd, cexAlt].get ⟨0, by decide⟩).exitMethod) = false
    ∧ findSupported [cexStd, cexAlt] cexEnv ≠
        some ((bundleNames cexStd).zip (bundleNames cexAlt))
    ∧ findSupported [cexStd, cexAlt] cexEnv =
        some [("reqA", "reqA2"), ("dupK", "enabK3"), ("elemC", "elemC2"),
              ("chgE", "chgE2"), ("errF", "errF2")] := by
  refine ⟨by decide, by decide, by decide, by decide⟩

/-- C2: in legacy mode, exit() on a non-null slot clears the slot to null
before the exit call is attempted, performs no environment effect at all
(the call target is the already-cleared slot, so dereferencing null
throws before any native invocation, as the second conjunct records), and
the caught failure never reaches the caller (the outcome is undefined,
not a throw). -/
theorem exit_legacy_clears_and_never_calls (c : Controller) (v : Video)
    (h : c.API = none) :
    c.exit (some v) = (none, [], Outcome.ret none)
    ∧ videoExitCall (none : Option Video) = ([], Except.error JsErr.typeError) := by
  constructor
  · simp [Controller.exit, h, videoExitCall]
  · rfl

/-- C2 witness: the legacy controller on the genuine API_LIST, exiting
with demoVideo in the slot. -/
theorem exit_legacy_clears_and_never_calls_w :
    cLegacy.exit (some demoVideo) = (none, [], Outcome.ret none)
    ∧ videoExitCall (none : Option Video) = ([], Except.error JsErr.typeError) :=
  exit_legacy_clears_and_never_calls cLegacy demoVideo (by decide)

/-- C3: in legacy mode, request({video: V}) sets the slot to V and then
attempts the native enter call (the trace records exactly that attempt);
when the call throws, the slot is rolled back to null and the outcome is
undefined, not a throw, whatever the slot held before. -/
theorem request_legacy_throw_rollback (c : Controller) (st : Option Video)
    (t : Target) (v : Video) (e : JsErr) (h : c.API = none)
    (hv : t.video = some v) (he : v.enterResult = Except.error e) :
    c.request st t = (none, [Eff.enterVideo v], Outcome.ret none) := by
  simp [Controller.request, h, hv, videoEnterCall, he]

/-- C3 witness: the legacy controller, requesting throwVideo while
demoVideo occupies the slot. -/
theorem request_legacy_throw_rollback_w :
    cLegacy.request (some demoVideo) ⟨none, some throwVideo⟩ =
      (none, [Eff.enterVideo throwVideo], Outcome.ret none) :=
  request_legacy_throw_rollback cLegacy (some demoVideo) ⟨none, some throwVideo⟩
    throwVideo (JsErr.native 9) (by decide) rfl rfl

/-- C4: for every candidate list and environment, the enabled getter is
the logical OR of the standard-path capability (mapping present and the
resolved enabled-property truthy on the document) and the legacy-path
capability (the probe video exposes webkitEnterFullscreen); in
particular, with no resolved mapping it equals the video capability test
alone. -/
theorem enabled_is_capability_or (apiList : List Bundle) (env : Env) :
    (createFullscreen apiList env).enabled =
      ((match findSupported apiList env with
        | some api => env.truthy (jsIndex api "fullscreenEnabled")
        | none => false) || env.createVideo.hasEnter)
    ∧ (findSupported apiList env = none →
        (createFullscreen apiList env).enabled = env.createVideo.hasEnter) := by
  constructor
  · rfl
  · intro h
    simp [Controller.enabled, createFullscreen, h]

/-- C4 witness: on an environment with no matching bundle, enabled equals
the probe video capability. -/
theorem enabled_is_capability_or_w :
    (createFullscreen API_LIST noEnv).enabled = noEnv.createVideo.hasEnter :=
  (enabled_is_capability_or API_LIST noEnv).2 (by decide)

/-- C5: in standard mode, isFullscreen({el: X}) holds exactly when X is
the current fullscreen element and isFullscreen() holds exactly when that
element is non-null; in legacy mode the same with {video: V} against the
tracked video (the element getter returns it exactly while its native
flag reads true). -/
theorem isFullscreen_characterization (c : Controller) (st : Option Video)
    (x : Elem) (v : Video) :
    (c.API.isSome = true →
      ((c.isFullscreen st ⟨some x, none⟩ = true ↔ c.element st = some (DomObj.el x))
       ∧ (c.isFullscreen st ⟨none, none⟩ = true ↔ (c.element st).isSome = true)))
    ∧ (c.API = none →
      ((c.isFullscreen st ⟨none, some v⟩ = true ↔ c.element st = some (DomObj.vid v))
       ∧ (c.isFullscreen st ⟨none, none⟩ = true ↔ (c.element st).isSome = true))) := by
  constructor
  · intro h
    match hAPI : c.API with
    | some api =>
      constructor <;> simp [Controller.isFullscreen, hAPI]
    | none => simp [hAPI] at h
  · intro h
    constructor <;> simp [Controller.isFullscreen, h]

/-- C5 witness: both modes at concrete inputs: the standard controller
whose document reports element 7 fullscreen, and the legacy controller
with demoVideo tracked and displaying. -/
theorem isFullscreen_characterization_w :
    ((cStd.isFullscreen none ⟨some 7, none⟩ = true ↔
        cStd.element none = some (DomObj.el 7))
     ∧ (cStd.isFullscreen none ⟨none, none⟩ = true ↔
        (cStd.element none).isSome = true))
    ∧ ((cLegacy.isFullscreen (some demoVideo) ⟨none, some demoVideo⟩ = true ↔
        cLegacy.element (some demoVideo) = some (DomObj.vid demoVideo))
     ∧ (cLegacy.isFullscreen (some demoVideo) ⟨none, none⟩ = true ↔
        (cLegacy.element (some demoVideo)).isSome = true)) :=
  ⟨(isFullscreen_characterization cStd none 7 demoVideo).1 (by decide),
   (isFullscreen_characterization cLegacy (some demoVideo) 7 demoVideo).2 (by decide)⟩

/-- C6: in both modes and for every target shape and slot state, toggle
produces exactly the state change and environment calls of the
conditional if isFullscreen(target) then exit() else request(target). -/
theorem toggle_refines_conditional (c : Controller) (st : Option Video)
    (t : Target) : c.toggle st t = toggleSpec c st t := rfl

/-- C7: if no bundle exit-method name exists on the probe, resolution
returns the absent value null; the resolver is a total function, so
absence is an ordinary value and no error is raised. -/
theorem findSupported_absent (apiList : List Bundle) (env : Env)
    (h : ∀ b ∈ apiList, env.has b.exitMethod = false) :
    findSupported apiList env = none := by
  have hfind : apiList.find? (fun api => env.has api.exitMethod) = none := by
    apply List.find?_eq_none.mpr
    intro b hb
    simp [h b hb]
  simp [findSupported, hfind]

/-- C7 witness: the genuine API_LIST against the empty environment. -/
theorem findSupported_absent_w : findSupported API_LIST noEnv = none :=
  findSupported_absent API_LIST noEnv (by decide)

/-- C8: in standard mode, request invokes the resolved request-method on
the given element, defaulting to the document root element when absent,
and the caller sees exactly the native result: a value is forwarded
untouched and a throw propagates unintercepted (toOutcome maps ok to ret
and error to thrown). -/
theorem request_standard_forwards (c : Controller) (st : Option Video)
    (t : Target) (api : Mapping) (h : c.API = some api) :
    c.request st t =
      (st,
       [Eff.requestNative (t.el.getD c.env.documentElement)
          (jsIndex api "requestFullscreen")],
       toOutcome (c.env.requestCall (t.el.getD c.env.documentElement)
          (jsIndex api "requestFullscreen"))) := by
  simp [Controller.request, h]

/-- C8 witness: the standard controller with no element given invokes
requestFullscreen on the document root element 1 and forwards the native
return value 5. -/
theorem request_standard_forwards_w :
    cStd.request none ⟨none, none⟩ =
      (none, [Eff.requestNative 1 "requestFullscreen"], Outcome.ret (some 5)) := by
  have happ := request_standard_forwards cStd none ⟨none, none⟩ stdMapping (by decide)
  simpa using happ

/-- C9: in legacy mode, onChange, offChange, onError and offError perform
no environment effect and leave the slot unchanged. -/
theorem legacy_listeners_noop (c : Controller) (st : Option Video)
    (l : Listener) (h : c.API = none) :
    c.onChange st l = (st, []) ∧ c.offChange st l = (st, [])
    ∧ c.onError st l = (st, []) ∧ c.offError st l = (st, []) := by
  refine ⟨?_, ?_, ?_, ?_⟩ <;>
    simp [Controller.onChange, Controller.offChange, Controller.onError,
      Controller.offError, h]

/-- C9 witness: the legacy controller with a non-null slot and listener 3. -/
theorem legacy_listeners_noop_w :
    cLegacy.onChange (some demoVideo) 3 = (some demoVideo, [])
    ∧ cLegacy.offChange (some demoVideo) 3 = (some demoVideo, [])
    ∧ cLegacy.onError (some demoVideo) 3 = (some demoVideo, [])
    ∧ cLegacy.offError (some demoVideo) 3 = (some demoVideo, []) :=
  legacy_listeners_noop cLegacy (some demoVideo) 3 (by decide)

/-- C10: in legacy mode, an operation whose guard is unmet is a silent
no-op returning undefined: request without a video performs no call and
leaves the slot unchanged, and exit with a null slot performs no call and
leaves the slot null; neither throws. -/
theorem legacy_guard_noop (c : Controller) (st : Option Video) (t : Target)
    (h : c.API = none) (hv : t.video = none) :
    c.request st t = (st, [], Outcome.ret none)
    ∧ c.exit none = (none, [], Outcome.ret none) := by
  constructor
  · simp [Controller.request, h, hv]
  · simp [Controller.exit, h]

/-- C10 witness: the legacy controller, requesting with only an element
given (no video) while demoVideo occupies the slot, and exiting on an
empty slot. -/
theorem legacy_guard_noop_w :
    cLegacy.request (some demoVideo) ⟨some 4, none⟩ =
      (some demoVideo, [], Outcome.ret none)
    ∧ cLegacy.exit none = (none, [], Outcome.ret none) :=
  legacy_guard_noop cLegacy (some demoVideo) ⟨some 4, none⟩ (by decide) rfl
